import Mathlib

/-!
Verification of the reliability and flow-control example (ReliableUDP.cpp).

The flow-control governor, the driver loop (main), and — where the
repository ships only callers — the ack tracker and sequence arithmetic of
the networking layer are embedded shallowly.  C++ floats are modelled as
rationals; the printf logging calls are side effects with no bearing on the
state and are dropped.
-/

namespace ReliableUDP

/-- The two modes of the flow-control governor (enum Mode in FlowControl). -/
inductive Mode where
  | Good : Mode
  | Bad : Mode
deriving DecidableEq, Repr

/-- The four data members of class FlowControl. -/
structure FlowControl where
  mode : Mode
  penalty_time : ℚ
  good_conditions_time : ℚ
  penalty_reduction_accumulator : ℚ
deriving DecidableEq, Repr

/-- FlowControl::Reset.  All four members are overwritten, so the prior
state is irrelevant. -/
def FlowControl.Reset (_fc : FlowControl) : FlowControl :=
  { mode := Mode.Bad
    penalty_time := 4
    good_conditions_time := 0
    penalty_reduction_accumulator := 0 }

/-- FlowControl::FlowControl.  The constructor prints a message and calls
Reset; the members before that call are indeterminate and ignored. -/
def FlowControl.construct : FlowControl :=
  FlowControl.Reset
    { mode := Mode.Bad
      penalty_time := 0
      good_conditions_time := 0
      penalty_reduction_accumulator := 0 }

/-- The first block of FlowControl::Update, guarded by mode == Good.
Returns the updated state and whether the C++ code executed the early
return statement (so that the following mode == Bad block is skipped). -/
def FlowControl.goodPhase (fc : FlowControl) (deltaTime rtt : ℚ) :
    FlowControl × Bool :=
  match fc.mode with
  | Mode.Bad => (fc, false)
  | Mode.Good =>
    if rtt > 250 then
      let pt :=
        if fc.good_conditions_time < 10 ∧ fc.penalty_time < 60 then
          let doubled := fc.penalty_time * 2
          if doubled > 60 then 60 else doubled
        else fc.penalty_time
      ({ mode := Mode.Bad
         penalty_time := pt
         good_conditions_time := 0
         penalty_reduction_accumulator := 0 }, true)
    else
      let gct := fc.good_conditions_time + deltaTime
      let pra := fc.penalty_reduction_accumulator + deltaTime
      if pra > 10 ∧ fc.penalty_time > 1 then
        let halved := fc.penalty_time / 2
        ({ mode := Mode.Good
           penalty_time := if halved < 1 then 1 else halved
           good_conditions_time := gct
           penalty_reduction_accumulator := 0 }, false)
      else
        ({ mode := Mode.Good
           penalty_time := fc.penalty_time
           good_conditions_time := gct
           penalty_reduction_accumulator := pra }, false)

/-- The second block of FlowControl::Update, guarded by mode == Bad. -/
def FlowControl.badPhase (fc : FlowControl) (deltaTime rtt : ℚ) :
    FlowControl :=
  match fc.mode with
  | Mode.Good => fc
  | Mode.Bad =>
    let gct :=
      if rtt ≤ 250 then fc.good_conditions_time + deltaTime else 0
    if gct > fc.penalty_time then
      { mode := Mode.Good
        penalty_time := fc.penalty_time
        good_conditions_time := 0
        penalty_reduction_accumulator := 0 }
    else
      { fc with good_conditions_time := gct }

/-- FlowControl::Update: the Good block followed, unless it returned
early, by the Bad block. -/
def FlowControl.Update (fc : FlowControl) (deltaTime rtt : ℚ) :
    FlowControl :=
  let s := fc.goodPhase deltaTime rtt
  if s.2 then s.1 else s.1.badPhase deltaTime rtt

/-- FlowControl::GetSendRate. -/
def FlowControl.GetSendRate (fc : FlowControl) : ℚ :=
  if fc.mode = Mode.Good then 30 else 10

/-- The sequence of modes the state passes through during one call to
Update: on entry, after the Good block, and after the Bad block (the last
two coincide when the Good block returned early). -/
def FlowControl.updateModeTrace (fc : FlowControl) (deltaTime rtt : ℚ) :
    List Mode :=
  let s := fc.goodPhase deltaTime rtt
  if s.2 then [fc.mode, s.1.mode]
  else [fc.mode, s.1.mode, (s.1.badPhase deltaTime rtt).mode]

/-- Number of adjacent positions at which a mode trace changes value. -/
def modeChanges : List Mode → Nat
  | [] => 0
  | [_] => 0
  | a :: b :: rest =>
      (if a = b then 0 else 1) + modeChanges (b :: rest)

/-- Iterated Update with fixed per-tick deltaTime and rtt arguments. -/
def FlowControl.iterUpdate (fc : FlowControl) (deltaTime rtt : ℚ) :
    Nat → FlowControl
  | 0 => fc
  | n + 1 => (fc.iterUpdate deltaTime rtt n).Update deltaTime rtt

/-- Number of ticks i below n at which the iterated state switches from
Bad before the tick to Good after it. -/
def transitionsToGood (fc : FlowControl) (deltaTime rtt : ℚ) (n : Nat) :
    Nat :=
  (List.range n).countP fun i =>
    decide ((fc.iterUpdate deltaTime rtt i).mode = Mode.Bad) &&
    decide ((fc.iterUpdate deltaTime rtt (i + 1)).mode = Mode.Good)

/-- Modelled from the spec: the circular sequence-number comparison of
SequenceMath (sequence_more_recent in the networking header, which is not
shipped with the repository; only ReliableUDP.cpp is).  Sequence numbers
are 32-bit unsigned; a is more recent than b iff
(a > b and a - b <= 2^31) or (b > a and b - a > 2^31). -/
def MoreRecent (a b : Nat) : Bool :=
  (decide (b < a) && decide (a - b ≤ 2 ^ 31)) ||
  (decide (a < b) && decide (b - a > 2 ^ 31))

/-- Modelled from the spec: an outgoing packet record of the AckTracker:
sequence number, size in bytes, send timestamp. -/
structure SentRecord where
  seq : Nat
  size : Nat
  time : ℚ
deriving DecidableEq, Repr

/-- Modelled from the spec: the AckTracker state that the sent/acked/lost
bookkeeping touches: the sent buffer and the derived statistics. -/
structure AckTracker where
  sentBuffer : List SentRecord
  sent_packets : Nat
  acked_packets : Nat
  lost_packets : Nat
  rtt : ℚ
deriving DecidableEq, Repr

/-- Modelled from the spec: a fresh AckTracker with empty buffers and zero
statistics. -/
def AckTracker.init : AckTracker :=
  { sentBuffer := []
    sent_packets := 0
    acked_packets := 0
    lost_packets := 0
    rtt := 0 }

/-- Modelled from the spec: OnPacketSent appends to the sent buffer and
increments the total-sent counter. -/
def AckTracker.OnPacketSent (t : AckTracker) (seq size : Nat) (now : ℚ) :
    AckTracker :=
  { t with
    sentBuffer := t.sentBuffer ++ [{ seq := seq, size := size, time := now }]
    sent_packets := t.sent_packets + 1 }

/-- Modelled from the spec: whether a header carrying ack and ack_bits
acknowledges sequence number seq: either seq is the ack value itself, or
the (circular) distance ack - seq lies in [1, 32] and the corresponding
bit is set. -/
def ackCovers (ack bits seq : Nat) : Bool :=
  decide (seq = ack) ||
    (let d := (ack + 2 ^ 32 - seq) % 2 ^ 32
     decide (1 ≤ d) && decide (d ≤ 32) && Nat.testBit bits (d - 1))

/-- Modelled from the spec: ProcessIncomingAck removes every covered entry
from the sent buffer, counting each removal as one acked packet and
folding its sample into the RTT moving average (smoothing factor 0.1,
clamped below by 0). -/
def AckTracker.ProcessIncomingAck (t : AckTracker) (ack bits : Nat)
    (now : ℚ) : AckTracker :=
  let acked := t.sentBuffer.filter fun r => ackCovers ack bits r.seq
  { sentBuffer := t.sentBuffer.filter fun r => !(ackCovers ack bits r.seq)
    sent_packets := t.sent_packets
    acked_packets := t.acked_packets + acked.length
    lost_packets := t.lost_packets
    rtt := acked.foldl
      (fun r rec =>
        let r' := r + ((now - rec.time) - r) * (1 / 10)
        if r' < 0 then 0 else r')
      t.rtt }

/-- Modelled from the spec: DetectLosses removes every sent-buffer entry
older than the timeout and tallies it as lost. -/
def AckTracker.DetectLosses (t : AckTracker) (now timeout : ℚ) :
    AckTracker :=
  let lost := t.sentBuffer.filter fun r => decide (now - r.time > timeout)
  { t with
    sentBuffer :=
      t.sentBuffer.filter fun r => !(decide (now - r.time > timeout))
    lost_packets := t.lost_packets + lost.length }

/-- Accessor SentPackets of the AckTracker. -/
def AckTracker.SentPackets (t : AckTracker) : Nat := t.sent_packets

/-- Accessor AckedPackets of the AckTracker. -/
def AckTracker.AckedPackets (t : AckTracker) : Nat := t.acked_packets

/-- Accessor LostPackets of the AckTracker. -/
def AckTracker.LostPackets (t : AckTracker) : Nat := t.lost_packets

/-- One step of an arbitrary interleaving of the AckTracker operations. -/
inductive AckOp where
  | send (seq size : Nat) (now : ℚ) : AckOp
  | recvAck (ack bits : Nat) (now : ℚ) : AckOp
  | detect (now timeout : ℚ) : AckOp

/-- Apply one operation to an AckTracker. -/
def AckTracker.applyOp (t : AckTracker) : AckOp → AckTracker
  | AckOp.send seq size now => t.OnPacketSent seq size now
  | AckOp.recvAck ack bits now => t.ProcessIncomingAck ack bits now
  | AckOp.detect now timeout => t.DetectLosses now timeout

/-- Run a finite interleaving of operations from the fresh tracker. -/
def AckTracker.run (ops : List AckOp) : AckTracker :=
  ops.foldl AckTracker.applyOp AckTracker.init

/-- The calls main makes on its collaborators, in program order.  The
flowUpdate and flowGetSendRate constructors stand for FlowControl::Update
and FlowControl::GetSendRate; main as written never performs either. -/
inductive HostCall where
  | connect : HostCall
  | listen : HostCall
  | sendPacket (size : Nat) : HostCall
  | receivePacket : HostCall
  | connUpdate : HostCall
  | wait : HostCall
  | flowUpdate : HostCall
  | flowGetSendRate : HostCall
deriving DecidableEq, Repr

/-- Whether a call is FlowControl::Update. -/
def HostCall.isFlowUpdate : HostCall → Bool
  | HostCall.flowUpdate => true
  | _ => false

/-- Whether a call is FlowControl::GetSendRate. -/
def HostCall.isFlowRead : HostCall → Bool
  | HostCall.flowGetSendRate => true
  | _ => false

/-- The server wait loop of main: while not connected, tick
connection.Update and wait.  The list gives the successive results of
connection.IsConnected; an exhausted list truncates the (unbounded)
loop. -/
def serverWaitTrace : List Bool → List HostCall
  | [] => []
  | c :: cs =>
    if c then []
    else HostCall.connUpdate :: HostCall.wait :: serverWaitTrace cs

/-- The server metadata loop of main: until the three metadata packets
have arrived, receive one packet, tick connection.Update, and wait.  The
list gives the successive byte counts connection.ReceivePacket returns;
got counts the metadata pieces received so far. -/
def serverMetaTrace : List Nat → Nat → List HostCall
  | [], _ => []
  | b :: bs, got =>
    if 3 ≤ got then []
    else
      HostCall.receivePacket :: HostCall.connUpdate :: HostCall.wait ::
        serverMetaTrace bs (if 0 < b then got + 1 else got)

/-- The calls main makes, by role.  A client that opens its file connects
and sends the three metadata packets (file size, hash, file name) back to
back; a client whose file fails to open exits at once.  The server
listens, runs the wait loop, then runs the metadata loop. -/
def mainTrace (isClient fileOk : Bool) (nameLen : Nat) (conn : List Bool)
    (reads : List Nat) : List HostCall :=
  if isClient then
    if fileOk then
      [HostCall.connect, HostCall.sendPacket 8, HostCall.sendPacket 32,
        HostCall.sendPacket nameLen]
    else []
  else
    HostCall.listen :: (serverWaitTrace conn ++ serverMetaTrace reads 0)

/-! Helper lemmas. -/

-- One Update preserves the penalty-time bounds.
theorem penaltyStep (fc : FlowControl) (dt rtt : ℚ)
    (h : 1 ≤ fc.penalty_time ∧ fc.penalty_time ≤ 60) :
    1 ≤ (fc.Update dt rtt).penalty_time ∧
      (fc.Update dt rtt).penalty_time ≤ 60 := by
  obtain ⟨h1, h60⟩ := h
  rcases hm : fc.mode with _ | _
  · simp only [FlowControl.Update, FlowControl.goodPhase, hm]
    by_cases hrtt : rtt > 250
    · rw [if_pos hrtt]
      by_cases hcond : fc.good_conditions_time < 10 ∧ fc.penalty_time < 60
      · rw [if_pos hcond]
        by_cases hcap : fc.penalty_time * 2 > 60
        · rw [if_pos hcap]
          norm_num
        · rw [if_neg hcap]
          constructor
          · show (1:ℚ) ≤ fc.penalty_time * 2
            linarith
          · show fc.penalty_time * 2 ≤ 60
            linarith [not_lt.mp hcap]
      · rw [if_neg hcond]
        exact ⟨h1, h60⟩
    · rw [if_neg hrtt]
      by_cases hcond : fc.penalty_reduction_accumulator + dt > 10 ∧
          fc.penalty_time > 1
      · rw [if_pos hcond]
        simp only [FlowControl.badPhase]
        by_cases hfloor : fc.penalty_time / 2 < 1
        · rw [if_pos hfloor]
          norm_num
        · rw [if_neg hfloor]
          constructor
          · show (1:ℚ) ≤ fc.penalty_time / 2
            exact not_lt.mp hfloor
          · show fc.penalty_time / 2 ≤ 60
            linarith
      · rw [if_neg hcond]
        simp only [FlowControl.badPhase]
        exact ⟨h1, h60⟩
  · simp only [FlowControl.Update, FlowControl.goodPhase, hm,
      FlowControl.badPhase]
    by_cases hup : (if rtt ≤ 250 then fc.good_conditions_time + dt else 0) >
        fc.penalty_time
    · rw [if_pos hup]
      exact ⟨h1, h60⟩
    · rw [if_neg hup]
      exact ⟨h1, h60⟩

-- The penalty-time bounds propagate along any run of Updates.
theorem penaltyBoundsRun :
    ∀ (inputs : List (ℚ × ℚ)) (s : FlowControl),
      1 ≤ s.penalty_time → s.penalty_time ≤ 60 →
      1 ≤ (inputs.foldl (fun t p => t.Update p.1 p.2) s).penalty_time ∧
      (inputs.foldl (fun t p => t.Update p.1 p.2) s).penalty_time ≤ 60 := by
  intro inputs
  induction inputs with
  | nil => exact fun s h1 h60 => ⟨h1, h60⟩
  | cons p rest ih =>
    intro s h1 h60
    have hstep := penaltyStep s p.1 p.2 ⟨h1, h60⟩
    exact ih _ hstep.1 hstep.2

-- One AckTracker operation preserves the packet-conservation equation.
theorem ackConservationStep (t : AckTracker) (op : AckOp)
    (h : t.sent_packets =
      t.acked_packets + t.lost_packets + t.sentBuffer.length) :
    (t.applyOp op).sent_packets =
      (t.applyOp op).acked_packets + (t.applyOp op).lost_packets +
        (t.applyOp op).sentBuffer.length := by
  rcases op with ⟨seq, size, now⟩ | ⟨ack, bits, now⟩ | ⟨now, timeout⟩
  · simp [AckTracker.applyOp, AckTracker.OnPacketSent, h]
    omega
  · simp only [AckTracker.applyOp, AckTracker.ProcessIncomingAck]
    have := List.length_eq_length_filter_add
      (l := t.sentBuffer) (fun r => ackCovers ack bits r.seq)
    omega
  · simp only [AckTracker.applyOp, AckTracker.DetectLosses]
    have := List.length_eq_length_filter_add
      (l := t.sentBuffer) (fun r => decide (now - r.time > timeout))
    omega

-- Closed form for the ticks before the promotion in the Bad-mode
-- scenario: after k ticks of rtt 100 at 30 Hz from the reset state, and
-- while k is at most 120, the state is still Bad with k/30 seconds of
-- good conditions accumulated.
theorem badRun (k : Nat) (hk : k ≤ 120) :
    FlowControl.construct.iterUpdate (1/30) 100 k =
      { mode := Mode.Bad, penalty_time := 4,
        good_conditions_time := (k : ℚ)/30,
        penalty_reduction_accumulator := 0 } := by
  induction k with
  | zero =>
    simp [FlowControl.iterUpdate, FlowControl.construct, FlowControl.Reset]
  | succ n ih =>
    have hn : n ≤ 120 := Nat.le_of_succ_le hk
    rw [FlowControl.iterUpdate, ih hn]
    simp only [FlowControl.Update, FlowControl.goodPhase,
      FlowControl.badPhase]
    have h2 : ((n:ℚ)/30 + 1/30) = ((n:ℚ)+1)/30 := by ring
    have hcast : ((n:ℚ) + 1) ≤ 120 := by exact_mod_cast hk
    have h3 : ¬(((n:ℚ)+1)/30 > 4) := by
      rw [gt_iff_lt, not_lt, div_le_iff₀ (by norm_num : (0:ℚ) < 30)]
      linarith
    push_cast
    norm_num [h2, h3]

-- Tick 121 of the Bad-mode scenario promotes to Good.
theorem goodAt121 :
    FlowControl.construct.iterUpdate (1/30) 100 121 =
      { mode := Mode.Good, penalty_time := 4, good_conditions_time := 0,
        penalty_reduction_accumulator := 0 } := by
  rw [FlowControl.iterUpdate, badRun 120 (by norm_num)]
  simp only [FlowControl.Update, FlowControl.goodPhase,
    FlowControl.badPhase]
  norm_num

-- Tick 122 of the Bad-mode scenario stays Good.
theorem goodAt122 :
    FlowControl.construct.iterUpdate (1/30) 100 122 =
      { mode := Mode.Good, penalty_time := 4, good_conditions_time := 1/30,
        penalty_reduction_accumulator := 1/30 } := by
  rw [FlowControl.iterUpdate, goodAt121]
  simp only [FlowControl.Update, FlowControl.goodPhase,
    FlowControl.badPhase]
  norm_num

-- Tick 123 of the Bad-mode scenario stays Good.
theorem goodAt123 :
    FlowControl.construct.iterUpdate (1/30) 100 123 =
      { mode := Mode.Good, penalty_time := 4, good_conditions_time := 2/30,
        penalty_reduction_accumulator := 2/30 } := by
  rw [FlowControl.iterUpdate, goodAt122]
  simp only [FlowControl.Update, FlowControl.goodPhase,
    FlowControl.badPhase]
  norm_num

-- Mode of the Bad-mode scenario at every tick up to 123: Bad before
-- tick 121, Good from tick 121 on.
theorem scenarioModes :
    ∀ i : Nat, i ≤ 123 →
      ((FlowControl.construct.iterUpdate (1/30) 100 i).mode = Mode.Good ↔
        121 ≤ i) := by
  intro i hi
  by_cases h : i ≤ 120
  · rw [badRun i h]
    simp only
    constructor
    · intro hc
      exact absurd hc (by simp)
    · intro hc
      omega
  · have h3 : i = 121 ∨ i = 122 ∨ i = 123 := by omega
    rcases h3 with h1 | h1 | h1 <;> subst h1
    · rw [goodAt121]
      simp
    · rw [goodAt122]
      simp
    · rw [goodAt123]
      simp

/-! Claim theorems. -/

/-- C1: from Good mode, an Update with rtt above 250 forces Bad mode,
zeroes good_conditions_time and penalty_reduction_accumulator, and
doubles penalty_time capped at 60 exactly when good_conditions_time was
below 10 and penalty_time below 60, leaving penalty_time unchanged
otherwise; in particular from Good with a 3-second streak and
penalty_time 4, one Update with rtt 300 yields Bad with
penalty_time 8. -/
theorem flow_good_to_bad_spec :
    (∀ (fc : FlowControl) (dt rtt : ℚ), fc.mode = Mode.Good → rtt > 250 →
      (fc.Update dt rtt).mode = Mode.Bad ∧
      (fc.Update dt rtt).good_conditions_time = 0 ∧
      (fc.Update dt rtt).penalty_reduction_accumulator = 0 ∧
      (fc.good_conditions_time < 10 ∧ fc.penalty_time < 60 →
        (fc.Update dt rtt).penalty_time = min (fc.penalty_time * 2) 60) ∧
      (¬(fc.good_conditions_time < 10 ∧ fc.penalty_time < 60) →
        (fc.Update dt rtt).penalty_time = fc.penalty_time)) ∧
    (∀ dt : ℚ,
      ({ mode := Mode.Good, penalty_time := 4, good_conditions_time := 3,
         penalty_reduction_accumulator := 0 } : FlowControl).Update dt 300 =
      { mode := Mode.Bad, penalty_time := 8, good_conditions_time := 0,
        penalty_reduction_accumulator := 0 }) := by
  constructor
  · intro fc dt rtt hmode hrtt
    simp only [FlowControl.Update, FlowControl.goodPhase, hmode]
    rw [if_pos hrtt]
    refine ⟨rfl, rfl, rfl, ?_, ?_⟩
    · intro hcond
      rw [if_pos hcond]
      rcases le_or_lt (fc.penalty_time * 2) 60 with h | h
      · simp [min_eq_left h, not_lt.mpr h]
      · simp [min_eq_right (le_of_lt h), h]
    · intro hcond
      rw [if_neg hcond]
      rfl
  · intro dt
    simp only [FlowControl.Update, FlowControl.goodPhase]
    norm_num

/-- Witness for C1 at the concrete scenario input: the Good state with a
3-second streak and penalty_time 4, updated with rtt 300, lands in Bad
with penalty_time doubled to 8. -/
theorem flow_good_to_bad_witness :
    (({ mode := Mode.Good, penalty_time := 4, good_conditions_time := 3,
        penalty_reduction_accumulator := 0 } : FlowControl).Update
        (1/30) 300).mode = Mode.Bad ∧
    (({ mode := Mode.Good, penalty_time := 4, good_conditions_time := 3,
        penalty_reduction_accumulator := 0 } : FlowControl).Update
        (1/30) 300).penalty_time = min ((4:ℚ) * 2) 60 := by
  have h := flow_good_to_bad_spec.1
    { mode := Mode.Good, penalty_time := 4, good_conditions_time := 3,
      penalty_reduction_accumulator := 0 } (1/30) 300 rfl (by norm_num)
  exact ⟨h.1, h.2.2.2.1 (by norm_num)⟩

/-- C2: in Bad mode, Update accumulates good_conditions_time while rtt is
at most 250 and zeroes it otherwise, and promotes to Good with both
counters reset exactly when the accumulated time exceeds penalty_time;
and concretely, from the reset state, ticking at 30 Hz with rtt 100 for
4.1 seconds (123 ticks) reaches Good exactly once, at tick 121, the first
tick at which the accumulated good time exceeds 4. -/
theorem flow_bad_mode_spec :
    (∀ (fc : FlowControl) (dt rtt : ℚ), fc.mode = Mode.Bad →
      ((fc.Update dt rtt).mode = Mode.Good ↔
        (if rtt ≤ 250 then fc.good_conditions_time + dt else 0) >
          fc.penalty_time) ∧
      ((if rtt ≤ 250 then fc.good_conditions_time + dt else 0) >
          fc.penalty_time →
        fc.Update dt rtt =
          { mode := Mode.Good, penalty_time := fc.penalty_time,
            good_conditions_time := 0,
            penalty_reduction_accumulator := 0 }) ∧
      (¬((if rtt ≤ 250 then fc.good_conditions_time + dt else 0) >
          fc.penalty_time) →
        fc.Update dt rtt =
          { mode := Mode.Bad, penalty_time := fc.penalty_time,
            good_conditions_time :=
              if rtt ≤ 250 then fc.good_conditions_time + dt else 0,
            penalty_reduction_accumulator :=
              fc.penalty_reduction_accumulator })) ∧
    (∀ i : Nat, i ≤ 123 →
      ((FlowControl.construct.iterUpdate (1/30) 100 i).mode = Mode.Good ↔
        121 ≤ i)) ∧
    (∀ i : Nat, i ≤ 120 →
      (FlowControl.construct.iterUpdate (1/30) 100
        i).good_conditions_time ≤ 4) ∧
    (FlowControl.construct.iterUpdate (1/30) 100
        120).good_conditions_time + 1/30 > 4 ∧
    transitionsToGood FlowControl.construct (1/30) 100 123 = 1 := by
  refine ⟨?_, scenarioModes, ?_, ?_, ?_⟩
  · intro fc dt rtt hmode
    simp only [FlowControl.Update, FlowControl.goodPhase, hmode]
    show ((fc.badPhase dt rtt).mode = Mode.Good ↔ _) ∧ _
    simp only [FlowControl.badPhase, hmode]
    by_cases hup : (if rtt ≤ 250 then fc.good_conditions_time + dt else 0) >
        fc.penalty_time
    · rw [if_pos hup]
      exact ⟨by simp [hup], fun _ => rfl, fun hn => absurd hup hn⟩
    · rw [if_neg hup]
      refine ⟨by simp [hup, hmode], fun hc => absurd hc hup, fun _ => ?_⟩
      cases fc
      simp_all
  · intro i hi
    rw [badRun i hi]
    show (i : ℚ)/30 ≤ 4
    rw [div_le_iff₀ (by norm_num : (0:ℚ) < 30)]
    have : (i : ℚ) ≤ 120 := by exact_mod_cast hi
    linarith
  · rw [badRun 120 (le_refl 120)]
    norm_num
  · unfold transitionsToGood
    rw [List.countP_congr (q := fun i => decide (i = 120)) ?_]
    · decide
    · intro i hi
      have hi' : i < 123 := List.mem_range.mp hi
      have h1 := scenarioModes i (Nat.le_of_lt hi')
      have h2 := scenarioModes (i + 1) (by omega)
      simp only [Bool.and_eq_true, decide_eq_true_eq]
      constructor
      · rintro ⟨hbad, hgood⟩
        have hg1 : 121 ≤ i + 1 := h2.mp hgood
        have hg2 : ¬(121 ≤ i) := by
          intro hc
          rw [h1.mpr hc] at hbad
          exact absurd hbad (by simp)
        omega
      · rintro rfl
        refine ⟨?_, h2.mpr (by omega)⟩
        rcases hmode : (FlowControl.construct.iterUpdate (1/30) 100
            120).mode with _ | _
        · exact absurd (h1.mp hmode) (by omega)
        · rfl

/-- Witness for C2 at a concrete input: the reset state in Bad mode,
updated once with deltaTime 1 and rtt 100, accumulates one second of good
conditions and stays Bad. -/
theorem flow_bad_mode_witness :
    ({ mode := Mode.Bad, penalty_time := 4, good_conditions_time := 0,
       penalty_reduction_accumulator := 0 } : FlowControl).Update 1 100 =
      { mode := Mode.Bad, penalty_time := 4, good_conditions_time := 1,
        penalty_reduction_accumulator := 0 } := by
  have h := flow_bad_mode_spec.1
    { mode := Mode.Bad, penalty_time := 4, good_conditions_time := 0,
      penalty_reduction_accumulator := 0 } 1 100 rfl
  have hc : ¬((if (100:ℚ) ≤ 250 then (0:ℚ) + 1 else 0) > 4) := by norm_num
  rw [h.2.2 hc]
  norm_num

/-- C3: in Good mode with rtt at most 250, Update adds deltaTime to both
good_conditions_time and penalty_reduction_accumulator, then halves
penalty_time with a floor of 1 and zeroes the accumulator exactly when
the incremented accumulator exceeds 10 and penalty_time exceeds 1, and
the mode stays Good. -/
theorem flow_good_sustain_spec :
    ∀ (fc : FlowControl) (dt rtt : ℚ), fc.mode = Mode.Good → rtt ≤ 250 →
      (fc.Update dt rtt).mode = Mode.Good ∧
      (fc.Update dt rtt).good_conditions_time =
        fc.good_conditions_time + dt ∧
      (fc.penalty_reduction_accumulator + dt > 10 ∧ fc.penalty_time > 1 →
        (fc.Update dt rtt).penalty_time = max (fc.penalty_time / 2) 1 ∧
        (fc.Update dt rtt).penalty_reduction_accumulator = 0) ∧
      (¬(fc.penalty_reduction_accumulator + dt > 10 ∧
          fc.penalty_time > 1) →
        (fc.Update dt rtt).penalty_time = fc.penalty_time ∧
        (fc.Update dt rtt).penalty_reduction_accumulator =
          fc.penalty_reduction_accumulator + dt) := by
  intro fc dt rtt hmode hrtt
  simp only [FlowControl.Update, FlowControl.goodPhase, hmode]
  rw [if_neg (not_lt.mpr hrtt)]
  by_cases hcond : fc.penalty_reduction_accumulator + dt > 10 ∧
      fc.penalty_time > 1
  · rw [if_pos hcond]
    refine ⟨rfl, rfl, fun _ => ⟨?_, rfl⟩, fun hn => absurd hcond hn⟩
    show (if fc.penalty_time / 2 < 1 then (1:ℚ) else fc.penalty_time / 2) =
      max (fc.penalty_time / 2) 1
    rcases le_or_lt 1 (fc.penalty_time / 2) with h | h
    · rw [max_eq_left h, if_neg (not_lt.mpr h)]
    · rw [max_eq_right (le_of_lt h), if_pos h]
  · rw [if_neg hcond]
    exact ⟨rfl, rfl, fun hc => absurd hc hcond, fun _ => ⟨rfl, rfl⟩⟩

/-- Witness for C3 at a concrete input: a Good state whose accumulator
crosses 10 with penalty_time 4 has its penalty halved to 2 and the
accumulator cleared, staying Good. -/
theorem flow_good_sustain_witness :
    (({ mode := Mode.Good, penalty_time := 4, good_conditions_time := 0,
        penalty_reduction_accumulator := 10 } : FlowControl).Update
        (1/30) 100).mode = Mode.Good ∧
    (({ mode := Mode.Good, penalty_time := 4, good_conditions_time := 0,
        penalty_reduction_accumulator := 10 } : FlowControl).Update
        (1/30) 100).penalty_time = max ((4:ℚ) / 2) 1 ∧
    (({ mode := Mode.Good, penalty_time := 4, good_conditions_time := 0,
        penalty_reduction_accumulator := 10 } : FlowControl).Update
        (1/30) 100).penalty_reduction_accumulator = 0 := by
  have h := flow_good_sustain_spec
    { mode := Mode.Good, penalty_time := 4, good_conditions_time := 0,
      penalty_reduction_accumulator := 10 } (1/30) 100 rfl (by norm_num)
  have hc := h.2.2.1 (by norm_num)
  exact ⟨h.1, hc.1, hc.2⟩

/-- C4: GetSendRate returns 30 in Good mode and 10 in Bad mode, and both
GetSendRate and Update are functions of the four governor fields and the
arguments alone: equal fields and equal arguments give equal results. -/
theorem flow_send_rate_spec :
    (∀ fc : FlowControl, fc.mode = Mode.Good → fc.GetSendRate = 30) ∧
    (∀ fc : FlowControl, fc.mode = Mode.Bad → fc.GetSendRate = 10) ∧
    (∀ (fc fc' : FlowControl) (dt rtt : ℚ),
      fc.mode = fc'.mode → fc.penalty_time = fc'.penalty_time →
      fc.good_conditions_time = fc'.good_conditions_time →
      fc.penalty_reduction_accumulator =
        fc'.penalty_reduction_accumulator →
      fc.Update dt rtt = fc'.Update dt rtt ∧
        fc.GetSendRate = fc'.GetSendRate) := by
  refine ⟨fun fc h => by simp [FlowControl.GetSendRate, h],
    fun fc h => by simp [FlowControl.GetSendRate, h], ?_⟩
  intro fc fc' dt rtt h1 h2 h3 h4
  cases fc
  cases fc'
  simp only at h1 h2 h3 h4
  subst h1
  subst h2
  subst h3
  subst h4
  exact ⟨rfl, rfl⟩

/-- Witness for C4 at concrete inputs: a Good state yields rate 30 and a
Bad state yields rate 10. -/
theorem flow_send_rate_witness :
    ({ mode := Mode.Good, penalty_time := 4, good_conditions_time := 0,
       penalty_reduction_accumulator := 0 } : FlowControl).GetSendRate =
      30 ∧
    ({ mode := Mode.Bad, penalty_time := 4, good_conditions_time := 0,
       penalty_reduction_accumulator := 0 } : FlowControl).GetSendRate =
      10 := by
  exact ⟨flow_send_rate_spec.1 _ rfl, flow_send_rate_spec.2.1 _ rfl⟩

/-- C5: Reset, from any prior state, and construction both produce the
initial state: Bad mode, penalty_time 4, both accumulators 0. -/
theorem flow_reset_spec :
    (∀ fc : FlowControl, fc.Reset =
      { mode := Mode.Bad, penalty_time := 4, good_conditions_time := 0,
        penalty_reduction_accumulator := 0 }) ∧
    FlowControl.construct =
      { mode := Mode.Bad, penalty_time := 4, good_conditions_time := 0,
        penalty_reduction_accumulator := 0 } :=
  ⟨fun _ => rfl, rfl⟩

/-- C6 (amended): main never interacts with the flow-control governor:
for every command-line role, file outcome, and sequence of collaborator
results, its call trace contains no FlowControl Update call and no
GetSendRate read, so no pacing against the governor rate occurs. -/
theorem main_no_flow_calls :
    ∀ (isClient fileOk : Bool) (nameLen : Nat) (conn : List Bool)
      (reads : List Nat),
      ((mainTrace isClient fileOk nameLen conn reads).all
        fun e => !(e.isFlowUpdate) && !(e.isFlowRead)) = true := by
  intro isClient fileOk nameLen conn reads
  have hwait : ∀ cs : List Bool,
      (serverWaitTrace cs).all
        (fun e => !(e.isFlowUpdate) && !(e.isFlowRead)) = true := by
    intro cs
    induction cs with
    | nil => rfl
    | cons c rest ih =>
      rcases c with _ | _
      · show (HostCall.connUpdate :: HostCall.wait ::
            serverWaitTrace rest).all _ = true
        simp only [List.all_cons, ih]
        rfl
      · rfl
  have hmeta : ∀ (bs : List Nat) (got : Nat),
      (serverMetaTrace bs got).all
        (fun e => !(e.isFlowUpdate) && !(e.isFlowRead)) = true := by
    intro bs
    induction bs with
    | nil => intro got; rfl
    | cons b rest ih =>
      intro got
      by_cases hg : 3 ≤ got
      · rw [serverMetaTrace, if_pos hg]
        rfl
      · rw [serverMetaTrace, if_neg hg]
        simp only [List.all_cons, ih]
        rfl
  rcases isClient with _ | _
  · show (HostCall.listen ::
        (serverWaitTrace conn ++ serverMetaTrace reads 0)).all _ = true
    simp only [List.all_cons, List.all_append, hwait conn, hmeta reads 0]
    rfl
  · rcases fileOk with _ | _ <;> rfl

/-- C6 counterexample: a concrete server run of main that ticks
connection.Update five times yet performs zero FlowControl Update calls,
refuting the claim that main calls the governor with the measured RTT
each tick. -/
theorem main_tick_without_flow_update :
    ((mainTrace false true 0 [false, false, true] [3, 3, 3]).countP
        fun e => decide (e = HostCall.connUpdate)) = 5 ∧
    ((mainTrace false true 0 [false, false, true] [3, 3, 3]).countP
        fun e => e.isFlowUpdate) = 0 := by
  constructor <;> rfl

/-- C7: after any finite interleaving of OnPacketSent,
ProcessIncomingAck, and DetectLosses from a fresh tracker, SentPackets
equals AckedPackets plus LostPackets plus the number of entries still in
the sent buffer. -/
theorem ack_tracker_conservation :
    ∀ ops : List AckOp,
      (AckTracker.run ops).SentPackets =
        (AckTracker.run ops).AckedPackets +
          (AckTracker.run ops).LostPackets +
          (AckTracker.run ops).sentBuffer.length := by
  intro ops
  suffices h : ∀ (l : List AckOp) (t : AckTracker),
      t.sent_packets = t.acked_packets + t.lost_packets +
        t.sentBuffer.length →
      (l.foldl AckTracker.applyOp t).sent_packets =
        (l.foldl AckTracker.applyOp t).acked_packets +
          (l.foldl AckTracker.applyOp t).lost_packets +
          (l.foldl AckTracker.applyOp t).sentBuffer.length by
    exact h ops AckTracker.init rfl
  intro l
  induction l with
  | nil => exact fun t ht => ht
  | cons op rest ih => exact fun t ht => ih _ (ackConservationStep t op ht)

/-- C8: MoreRecent is exactly the circular 32-bit ordering of the spec,
and on distinct 32-bit sequence numbers exactly one of MoreRecent a b and
MoreRecent b a holds. -/
theorem more_recent_total_spec :
    (∀ a b : Nat, MoreRecent a b = true ↔
      (b < a ∧ a - b ≤ 2 ^ 31) ∨ (a < b ∧ b - a > 2 ^ 31)) ∧
    (∀ a b : Nat, a < 2 ^ 32 → b < 2 ^ 32 → a ≠ b →
      (MoreRecent a b = true ↔ ¬(MoreRecent b a = true))) := by
  constructor
  · intro a b
    simp [MoreRecent]
  · intro a b _ _ hne
    simp only [MoreRecent, Bool.or_eq_true, Bool.and_eq_true,
      decide_eq_true_eq]
    omega

/-- Witness for C8 at the wraparound boundary: with a equal to 0 and b
equal to 2^31 - 1 (the value 2^32 - 2^31 - 1), MoreRecent b a holds and
MoreRecent a b does not, so exactly one of the two holds. -/
theorem more_recent_total_witness :
    MoreRecent 0 (2 ^ 32 - 2 ^ 31 - 1) = false ∧
    MoreRecent (2 ^ 32 - 2 ^ 31 - 1) 0 = true ∧
    (MoreRecent 0 (2 ^ 32 - 2 ^ 31 - 1) = true ↔
      ¬(MoreRecent (2 ^ 32 - 2 ^ 31 - 1) 0 = true)) := by
  have h := more_recent_total_spec.2 0 (2 ^ 32 - 2 ^ 31 - 1)
    (by norm_num) (by norm_num) (by norm_num)
  exact ⟨by decide, by decide, h⟩

/-- C9: every state reachable from construction or from Reset by a finite
sequence of Updates, with arbitrary deltaTime and rtt arguments, keeps
penalty_time between 1 and 60. -/
theorem flow_penalty_time_bounds :
    ∀ (inputs : List (ℚ × ℚ)) (fc : FlowControl),
      (1 ≤ (inputs.foldl (fun s p => s.Update p.1 p.2)
          fc.Reset).penalty_time ∧
        (inputs.foldl (fun s p => s.Update p.1 p.2)
          fc.Reset).penalty_time ≤ 60) ∧
      (1 ≤ (inputs.foldl (fun s p => s.Update p.1 p.2)
          FlowControl.construct).penalty_time ∧
        (inputs.foldl (fun s p => s.Update p.1 p.2)
          FlowControl.construct).penalty_time ≤ 60) := by
  intro inputs fc
  constructor
  · exact penaltyBoundsRun inputs fc.Reset (by norm_num [FlowControl.Reset])
      (by norm_num [FlowControl.Reset])
  · exact penaltyBoundsRun inputs FlowControl.construct
      (by norm_num [FlowControl.construct, FlowControl.Reset])
      (by norm_num [FlowControl.construct, FlowControl.Reset])

/-- C10: one call to Update changes the mode at most once along its
two sequential blocks, and every mode-changing call returns with
good_conditions_time and penalty_reduction_accumulator both zero. -/
theorem flow_update_single_transition :
    ∀ (fc : FlowControl) (dt rtt : ℚ),
      (fc.updateModeTrace dt rtt).head? = some fc.mode ∧
      (fc.updateModeTrace dt rtt).getLast? =
        some (fc.Update dt rtt).mode ∧
      modeChanges (fc.updateModeTrace dt rtt) ≤ 1 ∧
      ((fc.Update dt rtt).mode ≠ fc.mode →
        (fc.Update dt rtt).good_conditions_time = 0 ∧
        (fc.Update dt rtt).penalty_reduction_accumulator = 0) := by
  intro fc dt rtt
  rcases hm : fc.mode with _ | _
  · simp only [FlowControl.updateModeTrace, FlowControl.Update,
      FlowControl.goodPhase, hm]
    by_cases hrtt : rtt > 250
    · rw [if_pos hrtt]
      simp [modeChanges, List.getLast?, hm]
    · rw [if_neg hrtt]
      by_cases hcond : fc.penalty_reduction_accumulator + dt > 10 ∧
          fc.penalty_time > 1
      · rw [if_pos hcond]
        simp [modeChanges, List.getLast?, FlowControl.badPhase, hm]
      · rw [if_neg hcond]
        simp [modeChanges, List.getLast?, FlowControl.badPhase, hm]
  · simp only [FlowControl.updateModeTrace, FlowControl.Update,
      FlowControl.goodPhase, hm]
    simp only [FlowControl.badPhase, hm]
    by_cases hup : (if rtt ≤ 250 then fc.good_conditions_time + dt else 0) >
        fc.penalty_time
    · rw [if_pos hup]
      simp [modeChanges, List.getLast?, hm]
    · rw [if_neg hup]
      simp [modeChanges, List.getLast?, hm]

/-- Witness for C10 at a concrete input: the Good-to-Bad drop at rtt 300
changes the mode and indeed returns with both counters zero, with at most
one change along the trace. -/
theorem flow_update_single_transition_witness :
    modeChanges
      (({ mode := Mode.Good, penalty_time := 4, good_conditions_time := 3,
          penalty_reduction_accumulator := 0 } :
          FlowControl).updateModeTrace (1/30) 300) ≤ 1 ∧
    (({ mode := Mode.Good, penalty_time := 4, good_conditions_time := 3,
        penalty_reduction_accumulator := 0 } : FlowControl).Update
        (1/30) 300).good_conditions_time = 0 ∧
    (({ mode := Mode.Good, penalty_time := 4, good_conditions_time := 3,
        penalty_reduction_accumulator := 0 } : FlowControl).Update
        (1/30) 300).penalty_reduction_accumulator = 0 := by
  have h := flow_update_single_transition
    { mode := Mode.Good, penalty_time := 4, good_conditions_time := 3,
      penalty_reduction_accumulator := 0 } (1/30) 300
  have hmode :
      (({ mode := Mode.Good, penalty_time := 4, good_conditions_time := 3,
          penalty_reduction_accumulator := 0 } :
          FlowControl).Update (1/30) 300).mode = Mode.Bad := by
    simp only [FlowControl.Update, FlowControl.goodPhase]
    norm_num
  have hchange := h.2.2.2 (by rw [hmode]; simp)
  exact ⟨h.2.2.1, hchange.1, hchange.2⟩

end ReliableUDP
